import Mathlib

/-
Shallow embedding of the core of LeLobster/curseforge-modpack-downloader:
src/minecraft_modpack_downloader.py and src/utils.py.

Modelling conventions:
* The network is an oracle supplied as an argument: metadata responses are
  already-parsed documents (json.loads of Request(api).response.content), and
  the result of one `requests.get` is a `NetOutcome` (a bound response with a
  status code, or a raised transport exception).
* The filesystem is a snapshot of the single download folder: an association
  list from filename to byte contents, first match wins.  `pathlib` joining of
  the folder with the filename is folded into the key.
* Printed progress lines are represented by the outcome constructors they
  announce; time.sleep calls are counted, not timed.
* Machine integers do not matter here (ids are unbounded manifest integers),
  so ids and status codes are Nat.
-/

/-- A snapshot of the download folder: filename to byte contents, first match wins. -/
abbrev Disk := List (String × List Nat)

/-- Lookup of a filename in the folder snapshot (pathlib.Path.exists etc.). -/
def fsGet (fs : Disk) (p : String) : Option (List Nat) :=
  match fs with
  | [] => none
  | (q, c) :: rest => if q = p then some c else fsGet rest p

/-- Creating or truncating a file: `path.open(mode="wb")` followed by writing `c`. -/
def fsSet (fs : Disk) (p : String) (c : List Nat) : Disk :=
  (p, c) :: fs

/-- utils.is_valid_path with strict=True, as called by Downloader.download on the
destination path: `path.exists()` raises FileExistsError (caught, False) when the
path exists; a non-existing path falls through is_file/is_dir to True.  So the
strict call returns exactly "the path does not exist". -/
def is_valid_path_strict (fs : Disk) (p : String) : Bool :=
  (fsGet fs p).isNone

/-- The transport-level exceptions handled in utils.handle_get_request. -/
inductive TransportExn
  | timeout
  | connectionError
  | tooManyRedirects
  | sslError
  | requestException
  deriving DecidableEq

/-- What one `requests.get(url, ...)` call produces: a bound response with a status
code (raise_for_status may then raise HTTPError, which handle_get_request catches),
or a transport exception raised before `response` is ever assigned. -/
inductive NetOutcome
  | ok (status : Nat)
  | transport (e : TransportExn)
  deriving DecidableEq

/-- How utils.handle_get_request terminates: it returns the bound response
(whatever its status code; the HTTPError from raise_for_status is caught and
printed), or its final `return response` raises UnboundLocalError because a
transport exception was caught and `response` was never assigned. -/
inductive GetResult
  | response (status : Nat)
  | unboundLocal
  deriving DecidableEq

/-- utils.handle_get_request lines 62-94: one GET, every requests exception caught
and printed, then `return response`.  A transport exception means `response` is
unbound at the return, so UnboundLocalError is raised to the caller. -/
def handle_get_request : NetOutcome → GetResult
  | .ok s => .response s
  | .transport _ => .unboundLocal

/-- The `response.raw` stream consumed by Downloader.write_to_disk: the complete
body, plus an optional I/O failure point.  `errAt = some k` means
shutil.copyfileobj raises after the first k bytes reached the file. -/
structure RawStream where
  full : List Nat
  errAt : Option Nat
  deriving DecidableEq

/-- Well-formedness of a simulated failure point: an error that interrupts the
copy happens strictly before the end of the body. -/
def errAtOk (raw : RawStream) : Bool :=
  match raw.errAt with
  | none => true
  | some k => decide (k < raw.full.length)

/-- How Downloader.write_to_disk terminates: the success print, or the caught
exception print ("Something went wrong while writing ... to disk"). -/
inductive WriteOutcome
  | wrote
  | ioError
  deriving DecidableEq

/-- Downloader.write_to_disk lines 75-88: `path_with_file.open(mode="wb")` creates
(or truncates) the destination, shutil.copyfileobj streams into it, and any
exception is caught and printed.  Nothing removes or renames the file, so the
bytes copied before the failure stay visible at the final path. -/
def write_to_disk (fs : Disk) (path : String) (raw : RawStream) : WriteOutcome × Disk :=
  match raw.errAt with
  | some k => (.ioError, fsSet fs path (raw.full.take k))
  | none => (.wrote, fsSet fs path raw.full)

/-- One record of the widget-API metadata: the "id" and "name" keys used by
Mod.generate_url_via_widget_api. -/
structure FileRecord where
  id : Nat
  name : String
  deriving DecidableEq

/-- A successfully parsed (non-error) widget-API document.  `download = none`
models a document without a usable "download" record (KeyError on access);
`versions` is the per-minecraft-version mapping, and a version key absent from
the list models the KeyError on `data_json["versions"][minecraft]`. -/
structure MetaDoc where
  download : Option FileRecord
  versions : List (String × List FileRecord)
  deriving DecidableEq

/-- One parsed metadata response: either the queued-for-fetch error marker
(`"error" in data_json`), or a document. -/
inductive MetaResponse
  | error
  | doc (d : MetaDoc)
  deriving DecidableEq

/-- Lookup of a minecraft-version key in the "versions" mapping. -/
def lookupAssoc (l : List (String × List FileRecord)) (k : String) : Option (List FileRecord) :=
  match l with
  | [] => none
  | (q, v) :: rest => if q = k then some v else lookupAssoc rest k

/-- The forgecdn url built from a matched record: the stringified id is split
after its first four digits (line 152 of the downloader). -/
def recordUrl (r : FileRecord) : String :=
  "https://media.forgecdn.net/files/" ++ (toString r.id).take 4 ++ "/" ++
    (toString r.id).drop 4 ++ "/" ++ r.name

/-- How the selection part of Mod.generate_url_via_widget_api terminates:
a url (with self.file set to the record name), the printed
"does not contain a file with id" followed by `return None`, or an uncaught
KeyError from a missing "download" record or "versions" entry. -/
inductive ResolveOutcome
  | ok (file url : String)
  | noUrl
  | keyError
  deriving DecidableEq

/-- Mod.generate_url_via_widget_api lines 135-156: take the "download" record;
if its id is not the requested file id, replace it by the per-minecraft-version
list and scan that list for a matching id.  A dict at the end yields the url,
the untouched list yields the printed error and None, and a missing key raises
KeyError. -/
def selectDataPoint (d : MetaDoc) (minecraft : String) (fid : Nat) : ResolveOutcome :=
  match d.download with
  | none => .keyError
  | some primary =>
    if primary.id = fid then .ok primary.name (recordUrl primary)
    else
      match lookupAssoc d.versions minecraft with
      | none => .keyError
      | some lst =>
        match lst.find? (fun r => r.id == fid) with
        | some r => .ok r.name (recordUrl r)
        | none => .noUrl

/-- The `while True` loop of Mod.generate_url_via_widget_api lines 122-131: call
the metadata API; on the error marker sleep 2 seconds and retry, otherwise keep
the document.  The loop has no attempt ceiling, so the embedding takes fuel:
`none` means the loop is still running after `fuel` calls.  On `some (d, c)`,
`c` is the number of metadata calls made (the sleeps performed are `c - 1`). -/
def widgetLoop (meta : Nat → MetaResponse) : Nat → Nat → Option (MetaDoc × Nat)
  | 0, _ => none
  | fuel + 1, i =>
    match meta i with
    | .error => widgetLoop meta fuel (i + 1)
    | .doc d => some (d, i + 1)

/-- Mod.generate_url_via_widget_api in full: the retry-until-indexed loop
followed by record selection.  The second component counts metadata calls. -/
def generate_url_via_widget_api (fuel : Nat) (meta : Nat → MetaResponse)
    (minecraft : String) (fid : Nat) : Option (ResolveOutcome × Nat) :=
  (widgetLoop meta fuel 0).map (fun p => (selectDataPoint p.1 minecraft fid, p.2))

/-- The per-item terminal states announced by prints in executor_helper,
Downloader.download and Downloader.write_to_disk.  An item whose worker raises
an uncaught exception (KeyError in the resolver, UnboundLocalError in the
fetch) announces nothing; that case is `none` at the Option level. -/
inductive PipeOutcome
  | skipped
  | succeeded
  | fetchFailed
  | writeFailed
  | resolutionFailed
  deriving DecidableEq

/-- The environment one worker runs against: the item descriptor fields, the
metadata oracle, the result of `Request(mod.url, stream=True).response`, and
the body stream behind a 200 response. -/
structure ItemEnv where
  minecraft : String
  projectId : Nat
  fileId : Nat
  meta : Nat → MetaResponse
  fetch : GetResult
  stream : RawStream

/-- What one worker leaves behind: the announced outcome (none when the worker
died on an uncaught exception or is still inside the metadata loop), the
folder snapshot, and how many metadata calls and fetch calls it made. -/
structure WorkerResult where
  outcome : Option PipeOutcome
  fs : Disk
  metaCalls : Nat
  fetchCalls : Nat

/-- executor_helper lines 32-37 together with Downloader.download lines 51-73:
construct the Mod (the metadata resolution happens here, before anything looks
at the disk), and only when `mod.url is not None` run the download: skip when
the destination exists, otherwise fetch and classify the response, writing a
200 body to disk via write_to_disk. -/
def executor_helper (fuel : Nat) (e : ItemEnv) (fs : Disk) : WorkerResult :=
  match generate_url_via_widget_api fuel e.meta e.minecraft e.fileId with
  | none => ⟨none, fs, fuel, 0⟩
  | some (res, calls) =>
    match res with
    | .keyError => ⟨none, fs, calls, 0⟩
    | .noUrl => ⟨some .resolutionFailed, fs, calls, 0⟩
    | .ok file _url =>
      if (fsGet fs file).isSome then ⟨some .skipped, fs, calls, 0⟩
      else
        match e.fetch with
        | .unboundLocal => ⟨none, fs, calls, 1⟩
        | .response s =>
          if s = 200 then
            match write_to_disk fs file e.stream with
            | (.wrote, fs') => ⟨some .succeeded, fs', calls, 1⟩
            | (.ioError, fs') => ⟨some .writeFailed, fs', calls, 1⟩
          else ⟨some .fetchFailed, fs, calls, 1⟩

/-- execute_threadpool lines 23-40: every item is dispatched; the futures built
by executor.map are never iterated, so a worker that raised contributes `none`
and its exception is discarded.  The spec invariant that no two workers share a
destination path justifies folding the pool into one linearization. -/
def execute_threadpool (fuel : Nat) : List ItemEnv → Disk → List (Option PipeOutcome) × Disk
  | [], fs => ([], fs)
  | e :: es, fs =>
    let w := executor_helper fuel e fs
    let rest := execute_threadpool fuel es w.fs
    (w.outcome :: rest.1, rest.2)

/-- The manifest fields parse_manifest reads once the JSON decoded. -/
structure ManifestJson where
  name : String
  version : String
  mcVersion : String
  modLoaders : List String
  files : List (Nat × Nat)
  deriving DecidableEq

/-- The result of json.loads on the manifest text: a decoded document or a
json.decoder.JSONDecodeError with its message. -/
inductive JsonParseResult
  | ok (m : ManifestJson)
  | decodeError (e : String)

/-- The modpack_info dictionary built by parse_manifest. -/
structure ModpackInfo where
  name : String
  mod_count : Nat
  forge : String
  minecraft : String
  mods : List (Nat × Nat)
  deriving DecidableEq

/-- How parse_manifest terminates: sys.exit with a message (non-zero process
exit), the info dictionary, or an uncaught IndexError on `modLoaders[0]`. -/
inductive ParseManifestResult
  | exited (msg : String)
  | ok (info : ModpackInfo)
  | raised
  deriving DecidableEq

/-- parse_manifest lines 202-226: a JSONDecodeError is caught and turned into
`sys.exit` with a message quoting the decode error; otherwise the info fields
are extracted (`modLoaders[0]` raising IndexError on an empty list). -/
def parse_manifest : JsonParseResult → ParseManifestResult
  | .decodeError e =>
    .exited ("An error occurred while parsing the manifest file\n\"" ++ e ++ "\"")
  | .ok m =>
    match m.modLoaders.head? with
    | none => .raised
    | some l =>
      .ok ⟨m.name ++ " v" ++ m.version, m.files.length,
        l.replace "forge-" "", m.mcVersion, m.files⟩

/-- The process exit status: sys.exit(message) exits with status 1; a normal
return exits 0 (an uncaught exception is also non-zero, but parse_manifest
only reaches sys.exit on the decode error). -/
def sysExitCode : ParseManifestResult → Nat
  | .exited _ => 1
  | _ => 0

/-- Modelled from the spec: the `Request` class is imported from utils by the
downloader but is absent from src/utils.py; only its per-attempt helper
handle_get_request is present.  Its transient-status set is taken from spec
section 4.2. -/
def transientStatus (s : Nat) : Bool :=
  s = 500 || s = 503 || s = 504

/-- Modelled from the spec: the attempt ceiling of the missing `Request`
retry loop (spec section 4.2 recommends 3). -/
def attemptCeiling : Nat := 3

/-- How the modelled `Request` terminates: a 2xx success, retries exhausted on
a transient status, a returned non-2xx non-transient response, or the
UnboundLocalError propagating out of handle_get_request on a transport
exception.  Each constructor carries the attempts made and the sleeps
performed. -/
inductive FetchResult
  | success (status attempts sleeps : Nat)
  | retriesExhausted (lastStatus attempts sleeps : Nat)
  | failedStatus (status attempts sleeps : Nat)
  | raised (attempts sleeps : Nat)
  deriving DecidableEq

/-- Modelled from the spec: the retry loop of the missing `Request` class over
src's handle_get_request.  `left` is the number of attempts still allowed
(starting at the ceiling), `i` the 0-based attempt index, `sleeps` the fixed
2.5-second backoffs performed so far.  A transient status with attempts left
sleeps once and retries; any other terminal case is as in spec section 4.2,
except that a transport exception is the UnboundLocalError raised by src's
handle_get_request. -/
def requestLoop (server : Nat → NetOutcome) : Nat → Nat → Nat → FetchResult
  | 0, i, sleeps => .retriesExhausted 0 i sleeps
  | left + 1, i, sleeps =>
    match handle_get_request (server i) with
    | .unboundLocal => .raised (i + 1) sleeps
    | .response s =>
      if 200 ≤ s ∧ s < 300 then .success s (i + 1) sleeps
      else if transientStatus s then
        if left = 0 then .retriesExhausted s (i + 1) sleeps
        else requestLoop server left (i + 1) (sleeps + 1)
      else .failedStatus s (i + 1) sleeps

/-- Modelled from the spec: one fetch through the missing `Request` class,
starting with the full attempt ceiling. -/
def requestFetch (server : Nat → NetOutcome) : FetchResult :=
  requestLoop server attemptCeiling 0 0

/-- A widget document whose primary record matches file id 1234567. -/
def docMatch : MetaDoc := ⟨some ⟨1234567, "m.jar"⟩, []⟩

/-- A widget document with no usable "download" record. -/
def docNoDownload : MetaDoc := ⟨none, []⟩

/-- A widget document whose primary does not match file id 2 and whose
"versions" mapping has no entry at all. -/
def docNoVersionKey : MetaDoc := ⟨some ⟨1111111, "p.jar"⟩, []⟩

/-- A widget document whose primary does not match file id 2222222 but whose
per-version list for "1.12.2" contains a matching record. -/
def docVersionMatch : MetaDoc :=
  ⟨some ⟨1111111, "prim.jar"⟩, [("1.12.2", [⟨3333333, "other.jar"⟩, ⟨2222222, "match.jar"⟩])]⟩

/-- An item whose metadata is available at once and resolves to "m.jar". -/
def envResolved : ItemEnv :=
  ⟨"1.12.2", 111, 1234567, fun _ => .doc docMatch, .response 200, ⟨[1, 2, 3], none⟩⟩

/-- The same item as envResolved but whose fetch returns a 404 response. -/
def env404 : ItemEnv :=
  ⟨"1.12.2", 111, 1234567, fun _ => .doc docMatch, .response 404, ⟨[1], none⟩⟩

/-- An item whose resolver raises KeyError (no "download" record), regardless
of the disk state. -/
def envCrash : ItemEnv :=
  ⟨"1.12.2", 5, 9, fun _ => .doc docNoDownload, .response 200, ⟨[], none⟩⟩

/-- An item whose fetch raises UnboundLocalError out of handle_get_request. -/
def envTransport : ItemEnv :=
  ⟨"1.12.2", 111, 1234567, fun _ => .doc docMatch, .unboundLocal, ⟨[], none⟩⟩

/-- A folder snapshot that already holds "m.jar". -/
def diskHasM : Disk := [("m.jar", [])]

/-- A metadata oracle that answers the queued-for-fetch marker forever. -/
def metaAllErr : Nat → MetaResponse := fun _ => .error

/-- A metadata oracle that answers the queued-for-fetch marker on the first 31
calls and then delivers docMatch. -/
def metaErr31 : Nat → MetaResponse := fun i => if i < 31 then .error else .doc docMatch

/-- A body stream of four bytes whose copy fails after two bytes. -/
def rawErr : RawStream := ⟨[1, 2, 3, 4], some 2⟩

/-- A fetch server answering 503 on the first two attempts and 200 afterwards. -/
def srv503twice : Nat → NetOutcome := fun i => if i < 2 then .ok 503 else .ok 200

/-- A fetch server answering 503 on every attempt. -/
def srvAll503 : Nat → NetOutcome := fun _ => .ok 503

/-- An item whose resolver raises KeyError on the missing minecraft key in
"versions". -/
def envNoVersionKey : ItemEnv :=
  ⟨"1.12.2", 3, 2, fun _ => .doc docNoVersionKey, .response 200, ⟨[], none⟩⟩

theorem fsGet_set_self (fs : Disk) (p : String) (c : List Nat) :
    fsGet (fsSet fs p c) p = some c := by
  simp [fsGet, fsSet]

theorem fsGet_set_isSome (fs : Disk) (p q : String) (c : List Nat)
    (h : (fsGet fs q).isSome = true) :
    (fsGet (fsSet fs p c) q).isSome = true := by
  by_cases hpq : p = q <;> simp [fsGet, fsSet, hpq, h]

theorem widgetLoop_pos (meta : Nat → MetaResponse) :
    ∀ (fuel i : Nat) (d : MetaDoc) (c : Nat), widgetLoop meta fuel i = some (d, c) → i < c := by
  intro fuel
  induction fuel with
  | zero => intro i d c h; simp [widgetLoop] at h
  | succ n ih =>
    intro i d c h
    simp only [widgetLoop] at h
    cases hm : meta i with
    | error =>
      rw [hm] at h
      have := ih (i + 1) d c h
      omega
    | doc d' =>
      rw [hm] at h
      simp at h
      omega

theorem widgetLoop_allErr (meta : Nat → MetaResponse) (h : ∀ j, meta j = .error) :
    ∀ (fuel i : Nat), widgetLoop meta fuel i = none := by
  intro fuel
  induction fuel with
  | zero => intro i; rfl
  | succ n ih =>
    intro i
    simp only [widgetLoop, h i]
    exact ih (i + 1)

theorem widgetLoop_firstDoc (meta : Nat → MetaResponse) (d : MetaDoc) :
    ∀ (fuel n i : Nat), (∀ j, j < n → meta (i + j) = .error) → meta (i + n) = .doc d →
      n < fuel → widgetLoop meta fuel i = some (d, i + n + 1) := by
  intro fuel
  induction fuel with
  | zero => intro n i _ _ hn; exact absurd hn (Nat.not_lt_zero n)
  | succ m ih =>
    intro n i herr hdoc hn
    cases n with
    | zero =>
      simp only [Nat.add_zero] at hdoc
      simp [widgetLoop, hdoc]
    | succ k =>
      have h0 : meta i = .error := by
        have h' := herr 0 (Nat.succ_pos k)
        simpa using h'
      have hshift : ∀ j, j < k → meta (i + 1 + j) = .error := by
        intro j hj
        have h' := herr (j + 1) (by omega)
        have he : i + (j + 1) = i + 1 + j := by omega
        rw [he] at h'
        exact h'
      have hdoc' : meta (i + 1 + k) = .doc d := by
        have he : i + (k + 1) = i + 1 + k := by omega
        rw [he] at hdoc
        exact hdoc
      have hres := ih k (i + 1) hshift hdoc' (by omega)
      have he2 : i + 1 + k + 1 = i + (k + 1) + 1 := by omega
      rw [he2] at hres
      simp only [widgetLoop, h0]
      exact hres

theorem executor_skips_present (fuel : Nat) (e : ItemEnv) (fs : Disk)
    (file url : String) (calls : Nat)
    (hres : generate_url_via_widget_api fuel e.meta e.minecraft e.fileId
      = some (.ok file url, calls))
    (hex : (fsGet fs file).isSome = true) :
    executor_helper fuel e fs = ⟨some .skipped, fs, calls, 0⟩ := by
  simp [executor_helper, hres, hex]

/-- Claim C2 (amended): a write that is interrupted by an I/O error mid-copy is
caught and reported, but the partially copied prefix of the body remains
visible at the final destination path; the file at the destination carries the
full body exactly when the copy was not interrupted. -/
theorem write_failure_leaves_file_visible (fs : Disk) (p : String) (raw : RawStream)
    (h : errAtOk raw = true) :
    (fsGet (write_to_disk fs p raw).2 p).isSome = true ∧
      ((write_to_disk fs p raw).1 = .wrote ↔
        fsGet (write_to_disk fs p raw).2 p = some raw.full) := by
  cases hk : raw.errAt with
  | none => simp [write_to_disk, hk, fsGet_set_self]
  | some k =>
    have hlt : k < raw.full.length := by simpa [errAtOk, hk] using h
    constructor
    · simp [write_to_disk, hk, fsGet_set_self]
    · constructor
      · intro hw
        simp [write_to_disk, hk] at hw
      · intro hc
        simp [write_to_disk, hk, fsGet_set_self] at hc
        omega

/-- Claim C2 witness: a four-byte body interrupted after two bytes. -/
theorem write_failure_leaves_file_visible_witness :
    (fsGet (write_to_disk [] "a.jar" rawErr).2 "a.jar").isSome = true ∧
      ((write_to_disk [] "a.jar" rawErr).1 = .wrote ↔
        fsGet (write_to_disk [] "a.jar" rawErr).2 "a.jar" = some rawErr.full) :=
  write_failure_leaves_file_visible [] "a.jar" rawErr rfl

/-- Claim C2 counterexample: after a copy of [1,2,3,4] fails at two bytes, a
file holding [1,2] is visible at the final destination path, refuting "no file
is visible at the final destination path afterwards". -/
theorem interrupted_write_file_remains :
    (write_to_disk [] "m.jar" rawErr).1 = .ioError ∧
      fsGet (write_to_disk [] "m.jar" rawErr).2 "m.jar" = some [1, 2] ∧
      some [1, 2] ≠ (none : Option (List Nat)) := by
  refine ⟨rfl, rfl, by simp⟩

/-- Claim C3: the fetcher (the Request retry loop modelled from the spec, over
src's handle_get_request) retries transient statuses: on 503, 503, 200 it
succeeds on the third attempt after exactly two backoff sleeps, and on
unbroken 503 it gives up at the ceiling of 3 attempts after exactly
ceiling - 1 = 2 sleeps, reporting the exhausted retries with the last
status. -/
theorem fetch_retry_transient (server : Nat → NetOutcome) :
    (server 0 = .ok 503 → server 1 = .ok 503 → server 2 = .ok 200 →
      requestFetch server = .success 200 3 2) ∧
    ((∀ i, server i = .ok 503) → requestFetch server = .retriesExhausted 503 3 2) := by
  constructor
  · intro h0 h1 h2
    simp [requestFetch, attemptCeiling, requestLoop, handle_get_request, h0, h1, h2,
      transientStatus]
  · intro h
    simp [requestFetch, attemptCeiling, requestLoop, handle_get_request, h, transientStatus]

/-- Claim C3 witness: concrete servers realizing both scenarios. -/
theorem fetch_retry_transient_witness :
    requestFetch srv503twice = .success 200 3 2 ∧
      requestFetch srvAll503 = .retriesExhausted 503 3 2 :=
  ⟨(fetch_retry_transient srv503twice).1 rfl rfl rfl,
   (fetch_retry_transient srvAll503).2 (fun _ => rfl)⟩

/-- Claim C5: the resolver first checks the primary "download" record against
the requested file id; when it matches, that record is used; when it does not,
the per-minecraft-version list is scanned and a matching record there supplies
the filename and url (not the primary), while no match yields the explicit
no-url result.  The last conjunct ties the selection to the full resolver with
immediately available metadata. -/
theorem widget_selects_matching_record (d : MetaDoc) (mc : String) (fid : Nat)
    (primary : FileRecord) (hd : d.download = some primary) :
    (primary.id = fid → selectDataPoint d mc fid = .ok primary.name (recordUrl primary)) ∧
    (primary.id ≠ fid → ∀ lst, lookupAssoc d.versions mc = some lst →
      (∀ r, lst.find? (fun x => x.id == fid) = some r →
        selectDataPoint d mc fid = .ok r.name (recordUrl r)) ∧
      (lst.find? (fun x => x.id == fid) = none → selectDataPoint d mc fid = .noUrl)) ∧
    generate_url_via_widget_api 1 (fun _ => .doc d) mc fid
      = some (selectDataPoint d mc fid, 1) := by
  refine ⟨?_, ?_, rfl⟩
  · intro h
    simp [selectDataPoint, hd, h]
  · intro hne lst hlst
    constructor
    · intro r hr
      simp [selectDataPoint, hd, hne, hlst, hr]
    · intro hn
      simp [selectDataPoint, hd, hne, hlst, hn]

/-- Claim C5 witness: the primary (id 1111111) does not match 2222222, the
"1.12.2" list does, and resolution uses the matched record "match.jar". -/
theorem widget_selects_matching_record_witness :
    selectDataPoint docVersionMatch "1.12.2" 2222222
      = .ok "match.jar" (recordUrl ⟨2222222, "match.jar"⟩) :=
  ((widget_selects_matching_record docVersionMatch "1.12.2" 2222222
      ⟨1111111, "prim.jar"⟩ rfl).2.1 (by decide)
    [⟨3333333, "other.jar"⟩, ⟨2222222, "match.jar"⟩] rfl).1
    ⟨2222222, "match.jar"⟩ (by decide)

/-- Claim C6 (amended): when the metadata document lacks the expected keys (no
usable "download" record, or no "versions" entry for the requested minecraft
version while the primary does not match), the resolver raises an uncaught
KeyError instead of reporting an explicit error value; the explicit no-url
result is produced only by a present per-version list without a matching
record. -/
theorem missing_metadata_keys_raise (d : MetaDoc) (mc : String) (fid : Nat) :
    (d.download = none → selectDataPoint d mc fid = .keyError) ∧
    (∀ p, d.download = some p → p.id ≠ fid → lookupAssoc d.versions mc = none →
      selectDataPoint d mc fid = .keyError) := by
  constructor
  · intro h
    simp [selectDataPoint, h]
  · intro p hp hne hv
    simp [selectDataPoint, hp, hne, hv]

/-- Claim C6 witness: a document whose primary does not match and whose
"versions" mapping has no entry for "1.12.2" raises KeyError. -/
theorem missing_metadata_keys_raise_witness :
    selectDataPoint docNoVersionKey "1.12.2" 2 = .keyError :=
  (missing_metadata_keys_raise docNoVersionKey "1.12.2" 2).2
    ⟨1111111, "p.jar"⟩ rfl (by decide) rfl

/-- Claim C6 counterexample: on a document with the primary not matching and no
per-version entry, the resolver ends in the uncaught KeyError (not an explicit
error value), and the worker that ran it records no outcome at all. -/
theorem missing_version_key_crashes :
    generate_url_via_widget_api 1 (fun _ => .doc docNoVersionKey) "1.12.2" 2
      = some (.keyError, 1) ∧
    (executor_helper 1 envNoVersionKey []).outcome = none := by
  exact ⟨rfl, rfl⟩

/-- Claim C7: on every transport-level failure (timeout, connection refused via
ConnectionError, too-many-redirects, TLS failure, or any other
RequestException), handle_get_request does not return an absent response: its
final `return response` raises UnboundLocalError, so the exception propagates
to the caller and the worker dies with no recorded outcome — the caller's
`response is None` check never decides the failure. -/
theorem transport_error_raises_unbound_local :
    handle_get_request (.transport .timeout) = .unboundLocal ∧
    handle_get_request (.transport .connectionError) = .unboundLocal ∧
    handle_get_request (.transport .tooManyRedirects) = .unboundLocal ∧
    handle_get_request (.transport .sslError) = .unboundLocal ∧
    handle_get_request (.transport .requestException) = .unboundLocal ∧
    (executor_helper 1 envTransport []).outcome = none := by
  exact ⟨rfl, rfl, rfl, rfl, rfl, rfl⟩

/-- Length of the report list: every dispatched item occupies one slot of the
batch result, whether or not its worker raised. -/
theorem execute_threadpool_length (fuel : Nat) (envs : List ItemEnv) (fs : Disk) :
    ((execute_threadpool fuel envs fs).1).length = envs.length := by
  induction envs generalizing fs with
  | nil => rfl
  | cons a es ih => simp [execute_threadpool, ih]

/-- Claim C9: a manifest whose contents fail json.loads makes parse_manifest
call sys.exit with a message quoting the decode error (a non-zero process
exit), and per-item download failures never abort the batch: the thread pool
always returns a full report, one slot per item. -/
theorem malformed_manifest_exits_nonzero (e : String) :
    parse_manifest (.decodeError e)
        = .exited ("An error occurred while parsing the manifest file\n\"" ++ e ++ "\"") ∧
    sysExitCode (parse_manifest (.decodeError e)) ≠ 0 ∧
    ∀ (fuel : Nat) (envs : List ItemEnv) (fs : Disk),
      ((execute_threadpool fuel envs fs).1).length = envs.length := by
  exact ⟨rfl, Nat.one_ne_zero, fun fuel envs fs => execute_threadpool_length fuel envs fs⟩

/-- Claim C1 (amended): for an item whose metadata resolution succeeds and
whose destination path already exists, the outcome is Skipped, the folder is
untouched and no fetch call is made — but the metadata-resolution network
call(s) are still performed, because executor_helper builds the Mod (and with
it the destination filename) before Downloader.download checks the path. -/
theorem skip_after_resolution_no_fetch (fuel : Nat) (e : ItemEnv) (fs : Disk)
    (file url : String) (calls : Nat)
    (hres : generate_url_via_widget_api fuel e.meta e.minecraft e.fileId
      = some (.ok file url, calls))
    (hex : (fsGet fs file).isSome = true) :
    executor_helper fuel e fs = ⟨some .skipped, fs, calls, 0⟩ ∧ 1 ≤ calls := by
  refine ⟨executor_skips_present fuel e fs file url calls hres hex, ?_⟩
  cases hw : widgetLoop e.meta fuel 0 with
  | none => simp [generate_url_via_widget_api, hw] at hres
  | some dc =>
    obtain ⟨d, c⟩ := dc
    have hc : c = calls := by
      simp [generate_url_via_widget_api, hw] at hres
      exact hres.2
    have := widgetLoop_pos e.meta fuel 0 d c hw
    omega

/-- Claim C1 witness: an immediately resolved item whose destination file
"m.jar" already exists is skipped after exactly one metadata call. -/
theorem skip_after_resolution_no_fetch_witness :
    executor_helper 1 envResolved diskHasM
        = ⟨some PipeOutcome.skipped, diskHasM, 1, 0⟩ ∧ 1 ≤ 1 :=
  skip_after_resolution_no_fetch 1 envResolved diskHasM
    "m.jar" (recordUrl ⟨1234567, "m.jar"⟩) 1 rfl rfl

/-- Claim C1 counterexample: an item whose destination already exists still
performs a metadata-resolution network call (metaCalls = 1, not 0) even though
its outcome is Skipped, refuting "no network call of any kind is performed". -/
theorem skipped_item_still_resolves :
    (executor_helper 1 envResolved diskHasM).outcome = some PipeOutcome.skipped ∧
      (executor_helper 1 envResolved diskHasM).metaCalls ≠ 0 := by
  exact ⟨rfl, Nat.one_ne_zero⟩

/-- Claim C4 (amended): the widget resolver sleeps 2 seconds after each
queued-for-fetch response and retries with no attempt ceiling: when the
metadata becomes available after n error responses, it terminates with n + 1
metadata calls (for every n, however large); when every response is the error
marker, no amount of calls completes the resolution. -/
theorem widget_retry_unbounded (meta : Nat → MetaResponse) (fuel n : Nat) (d : MetaDoc)
    (mc : String) (fid : Nat) :
    ((∀ j, j < n → meta j = .error) → meta n = .doc d → n < fuel →
      generate_url_via_widget_api fuel meta mc fid
        = some (selectDataPoint d mc fid, n + 1)) ∧
    ((∀ j, meta j = .error) → generate_url_via_widget_api fuel meta mc fid = none) := by
  constructor
  · intro he hd hf
    have hl := widgetLoop_firstDoc meta d fuel n 0
      (fun j hj => by simpa using he j hj) (by simpa using hd) hf
    simp [generate_url_via_widget_api, hl]
  · intro h
    simp [generate_url_via_widget_api, widgetLoop_allErr meta h fuel 0]

/-- Claim C4 witness: metadata that stays queued for 31 calls resolves on the
32nd call. -/
theorem widget_retry_unbounded_witness :
    generate_url_via_widget_api 40 metaErr31 "1.12.2" 1234567
      = some (selectDataPoint docMatch "1.12.2" 1234567, 32) :=
  (widget_retry_unbounded metaErr31 40 31 docMatch "1.12.2" 1234567).1
    (fun j hj => by simp [metaErr31, hj]) (by norm_num [metaErr31]) (by omega)

/-- Claim C4 counterexample: with metadata that never leaves the queued state,
resolution has not terminated after 1000 metadata calls (no NeverIndexed
failure is ever reported), and with metadata queued for 31 calls the resolver
makes 32 calls — beyond the 30-attempt ceiling the claim asserts — and
succeeds instead of failing. -/
theorem widget_retry_exceeds_cap :
    generate_url_via_widget_api 1000 metaAllErr "1.12.2" 1 = none ∧
      (generate_url_via_widget_api 40 metaErr31 "1.12.2" 1234567).map (fun p => p.2)
        = some 32 := by
  constructor
  · simp [generate_url_via_widget_api, widgetLoop_allErr metaAllErr (fun _ => rfl) 1000 0]
  · have hl := widgetLoop_firstDoc metaErr31 docMatch 40 31 0
      (fun j hj => by simp [metaErr31, Nat.zero_add, hj]) (by norm_num [metaErr31]) (by omega)
    simp [generate_url_via_widget_api, hl]

/-- One worker never removes a file: any filename present before the worker ran
is still present afterwards. -/
theorem executor_fs_mono (fuel : Nat) (e : ItemEnv) (fs : Disk) (q : String)
    (h : (fsGet fs q).isSome = true) :
    (fsGet (executor_helper fuel e fs).fs q).isSome = true := by
  cases hres : generate_url_via_widget_api fuel e.meta e.minecraft e.fileId with
  | none => simpa [executor_helper, hres] using h
  | some rc =>
    obtain ⟨res, calls⟩ := rc
    cases res with
    | keyError => simpa [executor_helper, hres] using h
    | noUrl => simpa [executor_helper, hres] using h
    | ok file url =>
      cases hex : (fsGet fs file).isSome with
      | true => simpa [executor_helper, hres, hex] using h
      | false =>
        cases hf : e.fetch with
        | unboundLocal => simpa [executor_helper, hres, hex, hf] using h
        | response s =>
          by_cases hs : s = 200
          · subst hs
            cases hk : e.stream.errAt with
            | some k =>
              simpa [executor_helper, hres, hex, hf, write_to_disk, hk] using
                fsGet_set_isSome fs file q (e.stream.full.take k) h
            | none =>
              simpa [executor_helper, hres, hex, hf, write_to_disk, hk] using
                fsGet_set_isSome fs file q e.stream.full h
          · simpa [executor_helper, hres, hex, hf, hs] using h

/-- The whole batch never removes a file. -/
theorem threadpool_fs_mono (fuel : Nat) (envs : List ItemEnv) (fs : Disk) (q : String)
    (h : (fsGet fs q).isSome = true) :
    (fsGet (execute_threadpool fuel envs fs).2 q).isSome = true := by
  induction envs generalizing fs with
  | nil => simpa using h
  | cons a es ih =>
    simp only [execute_threadpool]
    exact ih (executor_helper fuel a fs).fs (executor_fs_mono fuel a fs q h)

/-- A worker that announced Skipped, Succeeded or WriteFailed had a successful
resolution, and its destination file is present when it finishes. -/
theorem executor_good_outcome (fuel : Nat) (e : ItemEnv) (fs : Disk) (o : PipeOutcome)
    (h : (executor_helper fuel e fs).outcome = some o)
    (hg : o = .skipped ∨ o = .succeeded ∨ o = .writeFailed) :
    ∃ file url calls,
      generate_url_via_widget_api fuel e.meta e.minecraft e.fileId
          = some (.ok file url, calls) ∧
        (fsGet (executor_helper fuel e fs).fs file).isSome = true := by
  cases hres : generate_url_via_widget_api fuel e.meta e.minecraft e.fileId with
  | none => simp [executor_helper, hres] at h
  | some rc =>
    obtain ⟨res, calls⟩ := rc
    cases res with
    | keyError => simp [executor_helper, hres] at h
    | noUrl =>
      simp [executor_helper, hres] at h
      rcases hg with rfl | rfl | rfl <;> simp at h
    | ok file url =>
      refine ⟨file, url, calls, rfl, ?_⟩
      cases hex : (fsGet fs file).isSome with
      | true => simp [executor_helper, hres, hex]
      | false =>
        cases hf : e.fetch with
        | unboundLocal => simp [executor_helper, hres, hex, hf] at h
        | response s =>
          by_cases hs : s = 200
          · subst hs
            cases hk : e.stream.errAt with
            | some k =>
              simp [executor_helper, hres, hex, hf, write_to_disk, hk, fsGet_set_self]
            | none =>
              simp [executor_helper, hres, hex, hf, write_to_disk, hk, fsGet_set_self]
          · simp [executor_helper, hres, hex, hf, hs] at h
            rcases hg with rfl | rfl | rfl <;> simp at h

/-- A worker that announced nothing (its exception was swallowed by the pool,
or it is still inside the metadata loop) has not touched the folder: the only
write happens after a 200 response, which always announces an outcome. -/
theorem crash_leaves_fs (fuel : Nat) (e : ItemEnv) (fs : Disk)
    (h : (executor_helper fuel e fs).outcome = none) :
    (executor_helper fuel e fs).fs = fs := by
  cases hres : generate_url_via_widget_api fuel e.meta e.minecraft e.fileId with
  | none => simp [executor_helper, hres]
  | some rc =>
    obtain ⟨res, calls⟩ := rc
    cases res with
    | keyError => simp [executor_helper, hres]
    | noUrl => simp [executor_helper, hres] at h
    | ok file url =>
      cases hex : (fsGet fs file).isSome with
      | true => simp [executor_helper, hres, hex] at h
      | false =>
        cases hf : e.fetch with
        | unboundLocal => simp [executor_helper, hres, hex, hf]
        | response s =>
          by_cases hs : s = 200
          · subst hs
            cases hk : e.stream.errAt with
            | some k => simp [executor_helper, hres, hex, hf, write_to_disk, hk] at h
            | none => simp [executor_helper, hres, hex, hf, write_to_disk, hk] at h
          · simp [executor_helper, hres, hex, hf, hs] at h

/-- Core of the second-run property: a rerun of the batch from any folder state
that contains every file the first run left behind turns every slot that
announced Skipped, Succeeded or WriteFailed into Skipped. -/
theorem threadpool_second_run (fuel : Nat) :
    ∀ (envs : List ItemEnv) (fs fsb : Disk),
      (∀ p, (fsGet (execute_threadpool fuel envs fs).2 p).isSome = true →
        (fsGet fsb p).isSome = true) →
      ∀ (i : Nat) (o : PipeOutcome),
        ((execute_threadpool fuel envs fs).1)[i]? = some (some o) →
        (o = .skipped ∨ o = .succeeded ∨ o = .writeFailed) →
        ((execute_threadpool fuel envs fsb).1)[i]? = some (some .skipped) := by
  intro envs
  induction envs with
  | nil =>
    intro fs fsb _ i o h _
    simp [execute_threadpool] at h
  | cons a es ih =>
    intro fs fsb hsup i o h hg
    simp only [execute_threadpool] at h hsup ⊢
    cases i with
    | zero =>
      simp only [List.getElem?_cons_zero, Option.some.injEq] at h
      obtain ⟨file, url, calls, hres, hfile⟩ := executor_good_outcome fuel a fs o h hg
      have hfile2 :
          (fsGet (execute_threadpool fuel es (executor_helper fuel a fs).fs).2 file).isSome
            = true :=
        threadpool_fs_mono fuel es (executor_helper fuel a fs).fs file hfile
      have hfsb : (fsGet fsb file).isSome = true := hsup file hfile2
      simp [executor_skips_present fuel a fsb file url calls hres hfsb]
    | succ j =>
      simp only [List.getElem?_cons_succ] at h ⊢
      exact ih (executor_helper fuel a fs).fs (executor_helper fuel a fsb).fs
        (fun p hp => executor_fs_mono fuel a fsb p (hsup p hp)) j o h hg

/-- Claim C8 (amended): rerunning the batch immediately, with no intervening
deletions, yields Skipped on the second run for every item whose first run
announced Skipped, Succeeded or WriteFailed (each of these leaves a file at
the destination path); items whose first run created no file — resolution
failures, fetch failures, swallowed exceptions — are attempted again, not
skipped. -/
theorem second_run_skips_completed_items (fuel : Nat) (envs : List ItemEnv) (fs : Disk)
    (i : Nat) (o : PipeOutcome)
    (h : ((execute_threadpool fuel envs fs).1)[i]? = some (some o))
    (hg : o = .skipped ∨ o = .succeeded ∨ o = .writeFailed) :
    ((execute_threadpool fuel envs (execute_threadpool fuel envs fs).2).1)[i]?
      = some (some .skipped) :=
  threadpool_second_run fuel envs fs (execute_threadpool fuel envs fs).2
    (fun _ hp => hp) i o h hg

/-- Claim C8 witness: an item that succeeded on an empty folder is skipped on
the immediate rerun. -/
theorem second_run_skips_completed_items_witness :
    ((execute_threadpool 1 [envResolved]
        (execute_threadpool 1 [envResolved] []).2).1)[0]?
      = some (some PipeOutcome.skipped) :=
  second_run_skips_completed_items 1 [envResolved] [] 0 .succeeded rfl
    (Or.inr (Or.inl rfl))

/-- Claim C8 counterexample: an item whose fetch returns 404 fails on the first
run without creating a file, and the immediate second run reports FetchFailed
again, not Skipped — refuting "Skipped for every item on the second run". -/
theorem second_run_retries_failed_item :
    ((execute_threadpool 1 [env404] (execute_threadpool 1 [env404] []).2).1)
        = [some PipeOutcome.fetchFailed] ∧
      some PipeOutcome.fetchFailed ≠ some PipeOutcome.skipped := by
  exact ⟨rfl, by simp⟩

/-- Claim C10: a worker that raises (here: one whose resolver always dies with
KeyError, whatever the folder holds) is invisible to the batch: the pool
returns normally, the crashed slot records no outcome (none), the items after
it are dispatched and processed exactly as if it were absent, and the final
folder state ignores it. -/
theorem worker_exception_swallowed (fuel : Nat) (xs ys : List ItemEnv) (e : ItemEnv)
    (fs : Disk)
    (h : ∀ g : Disk, (executor_helper fuel e g).outcome = none) :
    (execute_threadpool fuel (xs ++ e :: ys) fs).1
        = (execute_threadpool fuel xs fs).1
          ++ none :: (execute_threadpool fuel ys (execute_threadpool fuel xs fs).2).1 ∧
      (execute_threadpool fuel (xs ++ e :: ys) fs).2
        = (execute_threadpool fuel ys (execute_threadpool fuel xs fs).2).2 := by
  induction xs generalizing fs with
  | nil =>
    have hfs := crash_leaves_fs fuel e fs (h fs)
    simp [execute_threadpool, h fs, hfs]
  | cons a xs ih =>
    constructor
    · simp only [List.cons_append, execute_threadpool]
      exact congrArg (List.cons (executor_helper fuel a fs).outcome)
        (ih (executor_helper fuel a fs).fs).1
    · simp only [List.cons_append, execute_threadpool]
      exact (ih (executor_helper fuel a fs).fs).2

/-- Claim C10 witness: a crashing item followed by a normal item: the batch
reports none for the crash and still processes the other item. -/
theorem worker_exception_swallowed_witness :
    (execute_threadpool 1 [envCrash, envResolved] []).1
        = (execute_threadpool 1 [] []).1
          ++ none :: (execute_threadpool 1 [envResolved]
              (execute_threadpool 1 [] []).2).1 ∧
      (execute_threadpool 1 [envCrash, envResolved] []).2
        = (execute_threadpool 1 [envResolved] (execute_threadpool 1 [] []).2).2 :=
  worker_exception_swallowed 1 [] [envResolved] envCrash [] (fun _ => rfl)
